import Mathlib

/-!
Verification development for the SenseBridge exploration-assistant UI
(`src/App.tsx`).  The React component's state cells are collected into one
`AppState` record, each event handler becomes a pure transition function,
and the external AI service calls (`analyzeEnvironment`, `askSenseBridge`)
are modelled by outcome parameters together with a record of the request
that was sent (`none` = the external function was never invoked).
JavaScript numbers are modelled by `ℚ` (all numeric literals in the
source are exact decimals), ISO timestamps by `Nat` milliseconds (ISO-8601
strings within a session compare lexicographically exactly as their
instants compare), and JavaScript string truthiness by `jsPresent`.
-/

namespace SenseBridge

/-- A 3-axis vector of JavaScript numbers (modelled as `ℚ`). -/
structure Vec3 where
  x : ℚ
  y : ℚ
  z : ℚ
deriving Repr, DecidableEq

/-- `MotionData` from `types.ts`: accelerometer and gyroscope vectors. -/
structure MotionData where
  accel : Vec3
  gyro : Vec3
deriving Repr, DecidableEq

/-- `INITIAL_MOTION` (App.tsx line 11): the resting baseline reading. -/
def INITIAL_MOTION : MotionData :=
  { accel := { x := 0.02, y := 9.81, z := 0.05 }
  , gyro := { x := 0.01, y := 0.00, z := 0.01 } }

/-- `ANALYSIS_STEPS` (App.tsx line 16): the cosmetic loading captions. -/
def ANALYSIS_STEPS : List String :=
  [ "Mapping Visual Terrain..."
  , "Analyzing Acoustic Profile..."
  , "Integrating Sensor Data..."
  , "Triangulating Geo-Location..."
  , "Assessing Traveler Safety..."
  , "Synthesizing Exploration Insights..." ]

/-- `ExplorationAnalysisResult` from `types.ts`, as consumed by App.tsx. -/
structure ExplorationAnalysisResult where
  environment_type : String
  terrain_summary : String
  location_estimation : String
  confidence : ℚ
  safety_score : ℚ
  bio_clues : List String
  acoustic_clues : List String
  structural_notes : String
  solo_traveler_advice : String
  navigation_hint : String
  recommended_actions : List String
deriving Repr, DecidableEq

/-- `ExplorationLogEntry`: an analysis result spread together with an id,
a timestamp, and the captured image/transcript (App.tsx lines 162-168).
The TS object spread `{...result, id, timestamp, imageFrameUrl,
audioTranscript}` is modelled by pairing the result with the four extra
fields. -/
structure ExplorationLogEntry where
  result : ExplorationAnalysisResult
  id : String
  timestamp : Nat
  imageFrameUrl : Option String
  audioTranscript : Option String
deriving Repr, DecidableEq

/-- `QueryResult` from `types.ts`: answer plus reasoning. -/
structure QueryResult where
  answer : String
  reasoning : String
deriving Repr, DecidableEq

/-- The component state: one field per `useState` cell of `App` that holds
application data (the refs for the media recorder are platform handles and
carry no reviewed logic). -/
structure AppState where
  showLanding : Bool
  currentFrame : Option String
  isRecording : Bool
  transcribedAudio : Option String
  motionData : MotionData
  isAnalyzing : Bool
  loadingText : String
  currentAnalysis : Option ExplorationAnalysisResult
  explorationLog : List ExplorationLogEntry
  error : Option String
  userQuery : String
  isQuerying : Bool
  queryResult : Option QueryResult
deriving Repr, DecidableEq

/-- The initial state from the `useState` initialisers (App.tsx lines 27-45). -/
def initState : AppState :=
  { showLanding := true
  , currentFrame := none
  , isRecording := false
  , transcribedAudio := none
  , motionData := INITIAL_MOTION
  , isAnalyzing := false
  , loadingText := "Initializing..."
  , currentAnalysis := none
  , explorationLog := []
  , error := none
  , userQuery := ""
  , isQuerying := false
  , queryResult := none }

/-- JavaScript truthiness of a `string | null` value: `null` and the empty
string are falsy, every other string is truthy. -/
def jsPresent : Option String → Bool
  | none => false
  | some s => s ≠ ""

/-- `getSafetyColor` (App.tsx lines 196-200), verbatim thresholds. -/
def getSafetyColor (score : ℚ) : String :=
  if score ≥ 80 then "text-emerald-400"
  else if score ≥ 50 then "text-yellow-400"
  else "text-red-400"

/-- `getSafetyBg` (App.tsx lines 202-206), verbatim thresholds. -/
def getSafetyBg (score : ℚ) : String :=
  if score ≥ 80 then "bg-emerald-500/10 border-emerald-500/20"
  else if score ≥ 50 then "bg-yellow-500/10 border-yellow-500/20"
  else "bg-red-500/10 border-red-500/20"

/-- Claim C5: the safety-band classification is pure and total on [0,100]:
every score in [80,100] maps to the favorable (emerald) band, every score
in [50,80) to the cautionary (yellow) band, and every score in [0,50) to
the unfavorable (red) band, for both the text-color and the background
classifiers. -/
theorem safety_bands_in_range (s : ℚ) (h0 : 0 ≤ s) (h100 : s ≤ 100) :
    (80 ≤ s →
      getSafetyColor s = "text-emerald-400" ∧
      getSafetyBg s = "bg-emerald-500/10 border-emerald-500/20") ∧
    (50 ≤ s → s < 80 →
      getSafetyColor s = "text-yellow-400" ∧
      getSafetyBg s = "bg-yellow-500/10 border-yellow-500/20") ∧
    (0 ≤ s → s < 50 →
      getSafetyColor s = "text-red-400" ∧
      getSafetyBg s = "bg-red-500/10 border-red-500/20") := by
  refine ⟨fun h80 => ?_, fun h50 h80 => ?_, fun _ h50 => ?_⟩ <;>
    simp only [getSafetyColor, getSafetyBg] <;>
    split_ifs with h h' <;> first | exact ⟨rfl, rfl⟩ | linarith

/-- Witness for `safety_bands_in_range` at the concrete score 42. -/
theorem safety_bands_in_range_witness :
    getSafetyColor 42 = "text-red-400" ∧
    getSafetyBg 42 = "bg-red-500/10 border-red-500/20" :=
  (safety_bands_in_range 42 (by norm_num) (by norm_num)).2.2 (by norm_num)
    (by norm_num)

/-- Claim C10: the safety-band classifiers are total over all scores, with
no range check restricting the input to [0,100]: every score below 50
(including negative scores) maps to the unfavorable band and every score
at or above 80 (including scores above 100) maps to the favorable band. -/
theorem safety_bands_total (s : ℚ) :
    (s < 50 →
      getSafetyColor s = "text-red-400" ∧
      getSafetyBg s = "bg-red-500/10 border-red-500/20") ∧
    (80 ≤ s →
      getSafetyColor s = "text-emerald-400" ∧
      getSafetyBg s = "bg-emerald-500/10 border-emerald-500/20") := by
  refine ⟨fun h50 => ?_, fun h80 => ?_⟩ <;>
    simp only [getSafetyColor, getSafetyBg] <;>
    split_ifs with h h' <;> first | exact ⟨rfl, rfl⟩ | linarith

/-- Witness for `safety_bands_total` at the out-of-range scores -5 and 120. -/
theorem safety_bands_total_witness :
    (getSafetyColor (-5) = "text-red-400" ∧
      getSafetyBg (-5) = "bg-red-500/10 border-red-500/20") ∧
    (getSafetyColor 120 = "text-emerald-400" ∧
      getSafetyBg 120 = "bg-emerald-500/10 border-emerald-500/20") :=
  ⟨(safety_bands_total (-5)).1 (by norm_num),
   (safety_bands_total 120).2 (by norm_num)⟩

/-- The validation message of App.tsx line 140. -/
def VALIDATION_MSG : String :=
  "Please provide at least Visual or Audio input to analyze."

/-- The generic retryable failure message of App.tsx line 173. -/
def ANALYZE_FAIL_MSG : String := "Failed to analyze environment. Please try again."

/-- The microphone permission error of App.tsx line 106. -/
def MIC_DENIED_MSG : String := "Microphone access denied."

/-- The request captured by the `handleAnalyze` closure when the external
call starts: the current frame, transcript and motion reading at
invocation time. -/
structure AnalyzeReq where
  frame : Option String
  transcript : Option String
  motion : MotionData
deriving Repr, DecidableEq

/-- The wire payload of `analyzeEnvironment(imageBase64, transcribedAudio,
motionData)` (App.tsx line 157). -/
structure AnalyzeCallPayload where
  imageData : Option String
  transcript : Option String
  motion : MotionData
deriving Repr, DecidableEq

/-- JavaScript `String.prototype.trim`: strip leading and trailing
whitespace.  Defined over the character list so that it reduces by
`decide` (Lean's own `String.trim` is well-founded-recursive). -/
def jsTrim (s : String) : String :=
  String.mk (((s.data.dropWhile Char.isWhitespace).reverse.dropWhile
    Char.isWhitespace).reverse)

/-- JavaScript `s.split(',')`, over the character list. -/
def jsSplitOnComma (s : String) : List String :=
  (s.data.splitOn ',').map String.mk

/-- `currentFrame ? currentFrame.split(',')[1] : null` (App.tsx line 156):
the base64 payload of a data URL, `none` when the frame is absent, empty,
or has no comma. -/
def imagePayload : Option String → Option String
  | none => none
  | some f => if f = "" then none else (jsSplitOnComma f).get? 1

/-- The argument triple actually passed to `analyzeEnvironment`. -/
def analyzePayload (r : AnalyzeReq) : AnalyzeCallPayload :=
  { imageData := imagePayload r.frame
  , transcript := r.transcript
  , motion := r.motion }

/-- Outcome of the external `analyzeEnvironment` promise. -/
inductive AnalyzeOutcome where
  | ok (r : ExplorationAnalysisResult)
  | err
deriving Repr, DecidableEq

/-- Outcome of the external `askSenseBridge` promise. -/
inductive AskOutcome where
  | ok (r : QueryResult)
  | err
deriving Repr, DecidableEq

/-- The synchronous prefix of `handleAnalyze` (App.tsx lines 138-153), up
to the `await`: either the validation error (no request is sent,
second component `none`), or the pre-flight state updates together with
the captured request. -/
def analyzeStart (s : AppState) : AppState × Option AnalyzeReq :=
  if !jsPresent s.currentFrame && !jsPresent s.transcribedAudio then
    ({ s with error := some VALIDATION_MSG }, none)
  else
    ({ s with error := none
            , isAnalyzing := true
            , queryResult := none
            , loadingText := ANALYSIS_STEPS.headD "" },
     some { frame := s.currentFrame
          , transcript := s.transcribedAudio
          , motion := s.motionData })

/-- The continuation of `handleAnalyze` after the `await` (App.tsx lines
157-178): on success store the result and prepend the log entry built from
the closure-captured request `req`; on failure set the retryable error.
`fid` is the `crypto.randomUUID()` draw, `now` the completion instant of
`new Date()`, and `k` the number of caption-interval ticks that ran before
`clearInterval` (the caption cycles through `ANALYSIS_STEPS`). -/
def analyzeSettle (s : AppState) (req : AnalyzeReq) (outcome : AnalyzeOutcome)
    (fid : String) (now : Nat) (k : Nat) : AppState :=
  match outcome with
  | .ok r =>
      let entry : ExplorationLogEntry :=
        { result := r
        , id := fid
        , timestamp := now
        , imageFrameUrl := req.frame
        , audioTranscript := req.transcript }
      { s with currentAnalysis := some r
             , explorationLog := entry :: s.explorationLog
             , isAnalyzing := false
             , loadingText := ANALYSIS_STEPS.getD (k % ANALYSIS_STEPS.length) "" }
  | .err =>
      { s with error := some ANALYZE_FAIL_MSG
             , isAnalyzing := false
             , loadingText := ANALYSIS_STEPS.getD (k % ANALYSIS_STEPS.length) "" }

/-- One whole `handleAnalyze` invocation run to completion: validation, the
external call (outcome supplied as a parameter), and the settle phase.
The second component records the request sent, `none` when
`analyzeEnvironment` was never invoked. -/
def handleAnalyze (s : AppState) (outcome : AnalyzeOutcome) (fid : String)
    (now : Nat) (k : Nat) : AppState × Option AnalyzeReq :=
  match analyzeStart s with
  | (s1, none) => (s1, none)
  | (s1, some req) => (analyzeSettle s1 req outcome fid now k, some req)

/-- The request captured by the `handleAsk` closure. -/
structure AskReq where
  question : String
  context : ExplorationAnalysisResult
deriving Repr, DecidableEq

/-- The synchronous prefix of `handleAsk` (App.tsx lines 182-184): the
guard `if (!currentAnalysis || !userQuery.trim()) return;` then
`setIsQuerying(true)` and the external call (captured request in the
second component; `none` = `askSenseBridge` was never invoked). -/
def askStart (s : AppState) : AppState × Option AskReq :=
  match s.currentAnalysis with
  | none => (s, none)
  | some a =>
      if jsTrim s.userQuery = "" then (s, none)
      else ({ s with isQuerying := true },
            some { question := s.userQuery, context := a })

/-- The continuation of `handleAsk` after the `await` (App.tsx lines
186-192): on success store the query result; on failure only log (no state
change besides the `finally` reset of `isQuerying`). -/
def askSettle (s : AppState) (outcome : AskOutcome) : AppState :=
  match outcome with
  | .ok r => { s with queryResult := some r, isQuerying := false }
  | .err => { s with isQuerying := false }

/-- One whole `handleAsk` invocation run to completion. -/
def handleAsk (s : AppState) (outcome : AskOutcome) : AppState × Option AskReq :=
  match askStart s with
  | (s1, none) => (s1, none)
  | (s1, some req) => (askSettle s1 outcome, some req)

/-- Claim C1: when neither an image nor a transcript is present, the
analyze action never calls the external `analyzeEnvironment` function,
sets the error message to exactly the validation text, and leaves the
history with zero new entries. -/
theorem analyze_missing_input_validation (s : AppState)
    (outcome : AnalyzeOutcome) (fid : String) (now k : Nat)
    (hf : jsPresent s.currentFrame = false)
    (ht : jsPresent s.transcribedAudio = false) :
    (handleAnalyze s outcome fid now k).2 = none ∧
    (handleAnalyze s outcome fid now k).1.error = some VALIDATION_MSG ∧
    (handleAnalyze s outcome fid now k).1.explorationLog = s.explorationLog := by
  simp [handleAnalyze, analyzeStart, hf, ht]

/-- Witness for `analyze_missing_input_validation` at the initial state. -/
theorem analyze_missing_input_validation_witness :
    (handleAnalyze initState .err "id0" 0 0).2 = none ∧
    (handleAnalyze initState .err "id0" 0 0).1.error = some VALIDATION_MSG ∧
    (handleAnalyze initState .err "id0" 0 0).1.explorationLog
      = initState.explorationLog :=
  analyze_missing_input_validation initState .err "id0" 0 0 rfl rfl

/-- Claim C2: with at least one of image/transcript present and a
successful external call, the analyze action replaces the current analysis
with the returned result and prepends exactly one new history entry whose
id is the fresh UUID draw (hence not the id of any existing entry), whose
timestamp is the completion instant (not earlier than the request start,
the clock being monotone), and which snapshots the image and transcript
that were sent. -/
theorem analyze_success_updates (s : AppState)
    (r : ExplorationAnalysisResult) (fid : String) (start now k : Nat)
    (hin : jsPresent s.currentFrame = true ∨ jsPresent s.transcribedAudio = true)
    (hfresh : fid ∉ s.explorationLog.map (fun e => e.id))
    (hclock : start ≤ now) :
    (handleAnalyze s (.ok r) fid now k).1.currentAnalysis = some r ∧
    (∃ entry : ExplorationLogEntry,
      (handleAnalyze s (.ok r) fid now k).1.explorationLog
        = entry :: s.explorationLog ∧
      entry.result = r ∧
      entry.id = fid ∧
      entry.id ∉ s.explorationLog.map (fun e => e.id) ∧
      entry.timestamp = now ∧
      start ≤ entry.timestamp ∧
      entry.imageFrameUrl = s.currentFrame ∧
      entry.audioTranscript = s.transcribedAudio) ∧
    (handleAnalyze s (.ok r) fid now k).2
      = some { frame := s.currentFrame
             , transcript := s.transcribedAudio
             , motion := s.motionData } := by
  have hguard : (!jsPresent s.currentFrame && !jsPresent s.transcribedAudio) = false := by
    rcases hin with h | h <;> simp [h]
  refine ⟨?_,
    ⟨{ result := r, id := fid, timestamp := now,
       imageFrameUrl := s.currentFrame, audioTranscript := s.transcribedAudio },
      ?_, rfl, rfl, hfresh, rfl, hclock, rfl, rfl⟩, ?_⟩ <;>
    simp [handleAnalyze, analyzeStart, analyzeSettle, hguard]

/-- Witness for `analyze_success_updates`: a state holding one image. -/
theorem analyze_success_updates_witness :
    let s : AppState :=
      { initState with currentFrame := some "data:image/png;base64,AAAA" }
    let r : ExplorationAnalysisResult :=
      { environment_type := "Forest"
      , terrain_summary := "Dense woodland."
      , location_estimation := "Temperate forest"
      , confidence := 0.9
      , safety_score := 42
      , bio_clues := []
      , acoustic_clues := []
      , structural_notes := ""
      , solo_traveler_advice := ""
      , navigation_hint := ""
      , recommended_actions := [] }
    (handleAnalyze s (.ok r) "id1" 5 0).1.currentAnalysis = some r ∧
    (∃ entry : ExplorationLogEntry,
      (handleAnalyze s (.ok r) "id1" 5 0).1.explorationLog
        = entry :: s.explorationLog ∧
      entry.result = r ∧
      entry.id = "id1" ∧
      entry.id ∉ s.explorationLog.map (fun e => e.id) ∧
      entry.timestamp = 5 ∧
      3 ≤ entry.timestamp ∧
      entry.imageFrameUrl = s.currentFrame ∧
      entry.audioTranscript = s.transcribedAudio) ∧
    (handleAnalyze s (.ok r) "id1" 5 0).2
      = some { frame := s.currentFrame
             , transcript := s.transcribedAudio
             , motion := s.motionData } :=
  analyze_success_updates _ _ "id1" 3 5 0 (Or.inl (by decide))
    (by simp [initState]) (by norm_num)

/-- A concrete analysis result used in counterexample states. -/
def sampleResult : ExplorationAnalysisResult :=
  { environment_type := "Canyon"
  , terrain_summary := "Steep rock walls."
  , location_estimation := "Arid canyon"
  , confidence := 0.8
  , safety_score := 55
  , bio_clues := []
  , acoustic_clues := []
  , structural_notes := "Loose scree."
  , solo_traveler_advice := "Keep to the marked path."
  , navigation_hint := "Head downstream."
  , recommended_actions := ["Check footing."] }

/-- A concrete query result used in counterexample states. -/
def sampleQuery : QueryResult :=
  { answer := "Yes, it is stable.", reasoning := "No visible cracks." }

/-- A state with an image, a current analysis and a displayed query result. -/
def stateWithQuery : AppState :=
  { initState with
      currentFrame := some "data:image/png;base64,AAAA"
    , currentAnalysis := some sampleResult
    , queryResult := some sampleQuery }

/-- Counterexample to claim C3 as stated: a failing `analyzeEnvironment`
call does not leave all prior display state unchanged — the query result
is cleared by `setQueryResult(null)` before the external call, so after
the failure it is `none` although it was `some sampleQuery` before. -/
theorem analyze_failure_clears_query :
    stateWithQuery.queryResult = some sampleQuery ∧
    (handleAnalyze stateWithQuery .err "id2" 7 0).1.queryResult = none ∧
    (handleAnalyze stateWithQuery .err "id2" 7 0).1.queryResult
      ≠ stateWithQuery.queryResult := by
  refine ⟨rfl, ?_, ?_⟩ <;> decide

/-- Claim C3 as amended: on a failing external call the analyze action sets
the generic retryable failure message and leaves the current analysis
result and the history unchanged, but the query result has been cleared at
request start (before the external call), so it is `none` afterwards
rather than its prior value. -/
theorem analyze_failure_preserves (s : AppState) (fid : String) (now k : Nat)
    (hin : jsPresent s.currentFrame = true ∨ jsPresent s.transcribedAudio = true) :
    (handleAnalyze s .err fid now k).1.error = some ANALYZE_FAIL_MSG ∧
    (handleAnalyze s .err fid now k).1.currentAnalysis = s.currentAnalysis ∧
    (handleAnalyze s .err fid now k).1.explorationLog = s.explorationLog ∧
    (handleAnalyze s .err fid now k).1.queryResult = none := by
  have hguard : (!jsPresent s.currentFrame && !jsPresent s.transcribedAudio) = false := by
    rcases hin with h | h <;> simp [h]
  simp [handleAnalyze, analyzeStart, analyzeSettle, hguard]

/-- Witness for `analyze_failure_preserves` at `stateWithQuery`. -/
theorem analyze_failure_preserves_witness :
    (handleAnalyze stateWithQuery .err "id2" 7 0).1.error = some ANALYZE_FAIL_MSG ∧
    (handleAnalyze stateWithQuery .err "id2" 7 0).1.currentAnalysis
      = stateWithQuery.currentAnalysis ∧
    (handleAnalyze stateWithQuery .err "id2" 7 0).1.explorationLog
      = stateWithQuery.explorationLog ∧
    (handleAnalyze stateWithQuery .err "id2" 7 0).1.queryResult = none :=
  analyze_failure_preserves stateWithQuery "id2" 7 0 (Or.inl (by decide))

/-- Claim C7: when the question is empty or whitespace-only, or no current
analysis result exists, the query action is a no-op: it does not call the
external `askSenseBridge` function and changes no state. -/
theorem ask_noop_when_invalid (s : AppState) (outcome : AskOutcome)
    (h : jsTrim s.userQuery = "" ∨ s.currentAnalysis = none) :
    handleAsk s outcome = (s, none) := by
  rcases h with h | h
  · unfold handleAsk askStart
    cases hc : s.currentAnalysis <;> simp [h]
  · simp [handleAsk, askStart, h]

/-- Witness for `ask_noop_when_invalid`: a whitespace-only question with an
analysis present. -/
theorem ask_noop_when_invalid_witness :
    handleAsk { stateWithQuery with userQuery := "   " } .err
      = ({ stateWithQuery with userQuery := "   " }, none) :=
  ask_noop_when_invalid _ .err (Or.inl (by decide))

/-- Claim C8: for every state, a failing external `askSenseBridge` call
leaves the prior query display state exactly as it was and does not set
any user-visible error message (the failure is only logged). -/
theorem ask_failure_preserves (s : AppState) :
    (handleAsk s .err).1.queryResult = s.queryResult ∧
    (handleAsk s .err).1.error = s.error ∧
    (handleAsk s .err).1.currentAnalysis = s.currentAnalysis ∧
    (handleAsk s .err).1.explorationLog = s.explorationLog := by
  rcases hc : s.currentAnalysis with _ | a
  · simp [handleAsk, askStart, hc]
  · by_cases hq : jsTrim s.userQuery = "" <;>
      simp [handleAsk, askStart, askSettle, hc, hq]

/-- `simulateMotion`'s randomized reading (App.tsx lines 120-131): each
`Math.random()` draw `r1..r6 ∈ [0,1)` is an explicit parameter. -/
def randMotion (r1 r2 r3 r4 r5 r6 : ℚ) : MotionData :=
  { accel := { x := (r1 - 0.5) * 8, y := 9.81 + (r2 - 0.5) * 5, z := (r3 - 0.5) * 8 }
  , gyro := { x := (r4 - 0.5) * 2, y := (r5 - 0.5) * 2, z := (r6 - 0.5) * 2 } }

/-- The motion-simulator state: the current reading together with the fire
times of the pending `setTimeout` reset callbacks.  `simulateMotion` never
calls `clearTimeout`, so every scheduled reset stays pending until it
fires. -/
structure MotionSim where
  motionData : MotionData
  timers : List Nat
deriving Repr, DecidableEq

/-- The motion simulator before any trigger. -/
def motionInit : MotionSim := { motionData := INITIAL_MOTION, timers := [] }

/-- `simulateMotion` (App.tsx lines 118-135) triggered at instant `now`
(milliseconds) with randomized reading `r`: set the reading immediately
and schedule an uncancellable reset for `now + 3000`. -/
def simulateMotion (s : MotionSim) (now : Nat) (r : MotionData) : MotionSim :=
  { motionData := r, timers := s.timers ++ [now + 3000] }

/-- A pending `setTimeout(() => setMotionData(INITIAL_MOTION), 3000)`
callback firing at its scheduled instant `t`: the reading reverts to the
baseline.  Firing an unscheduled instant is a no-op. -/
def fireReset (s : MotionSim) (t : Nat) : MotionSim :=
  if t ∈ s.timers then
    { motionData := INITIAL_MOTION, timers := s.timers.erase t }
  else s

/-- Counterexample to claim C4 as stated: the reset timers are never
cancelled, so an earlier trigger's timer does reset a reading set by a
later trigger before that later trigger's own delay has elapsed.  Trigger
at 0 ms, trigger again at 1000 ms: the first timer fires at 3000 ms —
before the second trigger's delay elapses at 4000 ms — and the reading is
already back to the baseline, no longer the second trigger's reading. -/
lemma randMotion_const_ne_baseline (r : ℚ) (hne : (r - 0.5) * 8 ≠ 0.02) :
    randMotion r r r r r r ≠ INITIAL_MOTION := by
  intro h
  have hx := congrArg (fun m => m.accel.x) h
  simp only [randMotion, INITIAL_MOTION] at hx
  exact hne hx

lemma randMotion_zero_ne_baseline : randMotion 0 0 0 0 0 0 ≠ INITIAL_MOTION :=
  randMotion_const_ne_baseline 0 (by norm_num)

lemma randMotion_q3_ne_baseline :
    randMotion 0.75 0.75 0.75 0.75 0.75 0.75 ≠ INITIAL_MOTION :=
  randMotion_const_ne_baseline 0.75 (by norm_num)

theorem motion_earlier_timer_resets :
    randMotion 0.75 0.75 0.75 0.75 0.75 0.75 ≠ INITIAL_MOTION ∧
    (3000 : Nat) < 1000 + 3000 ∧
    (fireReset
      (simulateMotion (simulateMotion motionInit 0 (randMotion 0 0 0 0 0 0))
        1000 (randMotion 0.75 0.75 0.75 0.75 0.75 0.75))
      3000).motionData = INITIAL_MOTION := by
  refine ⟨randMotion_q3_ne_baseline, by norm_num, ?_⟩
  simp [fireReset, simulateMotion, motionInit]

/-- Claim C4 as amended: triggering the motion simulator immediately sets
the randomized reading (different from the baseline whenever the draw
differs from it), and each trigger's own timer restores exactly the
original baseline after the fixed 3-second delay; but reset timers are
never cancelled, so under repeated triggers the earlier trigger's timer
still fires after its own delay and resets a reading set by a later
trigger. -/
theorem motion_trigger_and_reset (s : MotionSim) (t1 t2 : Nat)
    (r1 r2 : MotionData) (h1 : r1 ≠ INITIAL_MOTION) :
    (simulateMotion s t1 r1).motionData = r1 ∧
    (simulateMotion s t1 r1).motionData ≠ INITIAL_MOTION ∧
    (fireReset (simulateMotion s t1 r1) (t1 + 3000)).motionData
      = INITIAL_MOTION ∧
    (fireReset (simulateMotion (simulateMotion s t1 r1) t2 r2) (t1 + 3000)).motionData
      = INITIAL_MOTION := by
  refine ⟨rfl, h1, ?_, ?_⟩ <;>
    simp [fireReset, simulateMotion, List.mem_append]

/-- Witness for `motion_trigger_and_reset` at concrete triggers. -/
theorem motion_trigger_and_reset_witness :
    (simulateMotion motionInit 0 (randMotion 0 0 0 0 0 0)).motionData
      = randMotion 0 0 0 0 0 0 ∧
    (simulateMotion motionInit 0 (randMotion 0 0 0 0 0 0)).motionData
      ≠ INITIAL_MOTION ∧
    (fireReset (simulateMotion motionInit 0 (randMotion 0 0 0 0 0 0))
      (0 + 3000)).motionData = INITIAL_MOTION ∧
    (fireReset
      (simulateMotion (simulateMotion motionInit 0 (randMotion 0 0 0 0 0 0))
        1000 (randMotion 0.75 0.75 0.75 0.75 0.75 0.75))
      (0 + 3000)).motionData = INITIAL_MOTION :=
  motion_trigger_and_reset motionInit 0 1000 (randMotion 0 0 0 0 0 0)
    (randMotion 0.75 0.75 0.75 0.75 0.75 0.75) randMotion_zero_ne_baseline

/-- One user-visible operation of the component, with the outcomes of any
external calls or random draws as parameters: `launch`/`goLanding` toggle
the landing view, `uploadImage` is the `FileReader` completion of
`handleImageUpload`, the recording actions cover `startRecording` (granted
or denied) and `stopRecording`, `transcriptReady` is the transcription
completion, `simulateTerrain`/`motionReset` are the motion trigger and its
timer, `analyze` and `ask` are whole handler invocations, `setQuery` is
the question input's onChange, and `clearQuery` the "Ask another question"
button. -/
inductive AppAction where
  | launch
  | goLanding
  | uploadImage (dataUrl : String)
  | recordStartOk
  | recordStartDenied
  | recordStop
  | transcriptReady (t : String)
  | simulateTerrain (r : MotionData)
  | motionReset
  | analyze (outcome : AnalyzeOutcome) (fid : String) (now k : Nat)
  | ask (outcome : AskOutcome)
  | setQuery (q : String)
  | clearQuery
deriving Repr, DecidableEq

/-- The state transition of each operation, from the corresponding handler
in App.tsx. -/
def appStep (s : AppState) (a : AppAction) : AppState :=
  match a with
  | .launch => { s with showLanding := false }
  | .goLanding => { s with showLanding := true }
  | .uploadImage d =>
      { s with currentFrame := some d, currentAnalysis := none, queryResult := none }
  | .recordStartOk => { s with isRecording := true }
  | .recordStartDenied => { s with error := some MIC_DENIED_MSG }
  | .recordStop => if s.isRecording then { s with isRecording := false } else s
  | .transcriptReady t => { s with transcribedAudio := some t }
  | .simulateTerrain r => { s with motionData := r }
  | .motionReset => { s with motionData := INITIAL_MOTION }
  | .analyze outcome fid now k => (handleAnalyze s outcome fid now k).1
  | .ask outcome => (handleAsk s outcome).1
  | .setQuery q => { s with userQuery := q }
  | .clearQuery => { s with queryResult := none }

/-- Claim C6: the history is append-only and strictly newest-first — every
operation either leaves the history untouched or prepends exactly one new
entry at the head, so the relative order and contents of all previously
existing entries are never changed (never reordered or removed within a
session). -/
theorem explorationLog_append_only (s : AppState) (a : AppAction) :
    ∃ pre : List ExplorationLogEntry,
      (appStep s a).explorationLog = pre ++ s.explorationLog ∧ pre.length ≤ 1 := by
  cases a with
  | analyze outcome fid now k =>
      by_cases hguard :
        (!jsPresent s.currentFrame && !jsPresent s.transcribedAudio) = true
      · exact ⟨[], by simp [appStep, handleAnalyze, analyzeStart, hguard], by simp⟩
      · rw [Bool.not_eq_true] at hguard
        cases outcome with
        | ok r =>
            refine ⟨[{ result := r, id := fid, timestamp := now,
                       imageFrameUrl := s.currentFrame,
                       audioTranscript := s.transcribedAudio }], ?_, by simp⟩
            simp [appStep, handleAnalyze, analyzeStart, analyzeSettle, hguard]
        | err =>
            exact ⟨[], by
              simp [appStep, handleAnalyze, analyzeStart, analyzeSettle, hguard],
              by simp⟩
  | ask outcome =>
      refine ⟨[], ?_, by simp⟩
      rcases hc : s.currentAnalysis with _ | a
      · simp [appStep, handleAsk, askStart, hc]
      · by_cases hq : jsTrim s.userQuery = "" <;>
          cases outcome <;>
          simp [appStep, handleAsk, askStart, askSettle, hc, hq]
  | recordStop =>
      by_cases hr : s.isRecording <;> exact ⟨[], by simp [appStep, hr], by simp⟩
  | _ => exact ⟨[], by simp [appStep], by simp⟩

/-- The interleaving model: the component state plus the external requests
currently in flight (issued but not yet settled), in issue order. -/
structure MState where
  app : AppState
  analysisInFlight : List AnalyzeReq
  queriesInFlight : List AskReq
deriving Repr, DecidableEq

/-- The machine's initial state: no request in flight. -/
def initM : MState :=
  { app := initState, analysisInFlight := [], queriesInFlight := [] }

/-- Run the synchronous prefix of `handleAsk` inside the machine,
recording the issued request when the guard passes. -/
def askStartM (m : MState) : MState :=
  match askStart m.app with
  | (s1, none) => { m with app := s1 }
  | (s1, some req) => { m with app := s1, queriesInFlight := m.queriesInFlight ++ [req] }

/-- The user-interface events relevant to request interleaving.  Each
event's enabling condition is taken from the JSX: the analyze button is
`disabled={isAnalyzing}`; the question input is rendered only while no
query result is displayed and is `disabled={!currentAnalysis}`; the send
button is additionally disabled while `isQuerying` or when the trimmed
question is empty.  A disabled or unrendered control fires no event, so
`uiStep` is the identity there.  `analyzeDone`/`askDone` are promise
settlements of the oldest outstanding request. -/
inductive UIEvent where
  | uploadImage (d : String)
  | transcriptReady (t : String)
  | setQuery (q : String)
  | analyzeClick
  | analyzeDone (outcome : AnalyzeOutcome) (fid : String) (now k : Nat)
  | askButton
  | askEnter
  | askDone (outcome : AskOutcome)
deriving Repr, DecidableEq

/-- One interleaving step. -/
def uiStep (m : MState) (e : UIEvent) : MState :=
  match e with
  | .uploadImage d => { m with app := appStep m.app (.uploadImage d) }
  | .transcriptReady t => { m with app := appStep m.app (.transcriptReady t) }
  | .setQuery q =>
      if m.app.currentAnalysis.isSome && m.app.queryResult.isNone then
        { m with app := { m.app with userQuery := q } }
      else m
  | .analyzeClick =>
      if m.app.isAnalyzing then m
      else
        match analyzeStart m.app with
        | (s1, none) => { m with app := s1 }
        | (s1, some req) =>
            { m with app := s1, analysisInFlight := m.analysisInFlight ++ [req] }
  | .analyzeDone outcome fid now k =>
      match m.analysisInFlight with
      | [] => m
      | req :: rest =>
          { m with app := analyzeSettle m.app req outcome fid now k
                 , analysisInFlight := rest }
  | .askButton =>
      if m.app.currentAnalysis.isSome && !m.app.isQuerying
          && !(jsTrim m.app.userQuery == "") && m.app.queryResult.isNone then
        askStartM m
      else m
  | .askEnter =>
      if m.app.currentAnalysis.isSome && m.app.queryResult.isNone then
        askStartM m
      else m
  | .askDone outcome =>
      match m.queriesInFlight with
      | [] => m
      | _ :: rest => { m with app := askSettle m.app outcome, queriesInFlight := rest }

/-- Run a sequence of interleaving steps. -/
def uiRun (m : MState) (evs : List UIEvent) : MState := evs.foldl uiStep m

/-- A session: upload an image, analyze successfully, type a question,
and press Enter once — one query request is now outstanding. -/
def enterTrace : List UIEvent :=
  [ .uploadImage "data:image/png;base64,AAAA"
  , .analyzeClick
  , .analyzeDone (.ok sampleResult) "id9" 11 0
  , .setQuery "Is the canyon safe?"
  , .askEnter ]

/-- Counterexample to claim C9 as stated: from the reachable state after
`enterTrace` a query request is outstanding (`isQuerying` is true), yet
the Enter key in the question field starts a second query request —
`handleAsk` never checks `isQuerying`; only the send button is disabled. -/
theorem double_query_via_enter :
    (uiRun initM enterTrace).queriesInFlight.length = 1 ∧
    (uiRun initM enterTrace).app.isQuerying = true ∧
    (uiStep (uiRun initM enterTrace) .askEnter).queriesInFlight.length = 2 :=
  ⟨rfl, rfl, rfl⟩

/-- After settling, `analyzeSettle` always clears the in-flight flag. -/
lemma analyzeSettle_isAnalyzing (s : AppState) (req : AnalyzeReq)
    (outcome : AnalyzeOutcome) (fid : String) (now k : Nat) :
    (analyzeSettle s req outcome fid now k).isAnalyzing = false := by
  cases outcome <;> rfl

/-- `askStartM` touches only the query side of the machine. -/
lemma askStartM_analysis (m : MState) :
    (askStartM m).app.isAnalyzing = m.app.isAnalyzing ∧
    (askStartM m).analysisInFlight = m.analysisInFlight := by
  unfold askStartM askStart
  rcases hc : m.app.currentAnalysis with _ | a
  · exact ⟨rfl, rfl⟩
  · by_cases hq : jsTrim m.app.userQuery = "" <;> simp [hq]

/-- The number of outstanding analysis requests always matches the
`isAnalyzing` flag. -/
def analysisBalanced (m : MState) : Prop :=
  m.analysisInFlight.length = (if m.app.isAnalyzing then 1 else 0)

lemma uiStep_analysisBalanced (m : MState) (e : UIEvent)
    (h : analysisBalanced m) : analysisBalanced (uiStep m e) := by
  cases e with
  | uploadImage d => simpa [uiStep, appStep, analysisBalanced] using h
  | transcriptReady t => simpa [uiStep, appStep, analysisBalanced] using h
  | setQuery q =>
      by_cases hc : (m.app.currentAnalysis.isSome && m.app.queryResult.isNone) = true <;>
        simpa [uiStep, hc, analysisBalanced] using h
  | analyzeClick =>
      by_cases hA : m.app.isAnalyzing
      · simpa [uiStep, hA] using h
      · by_cases hg :
          (!jsPresent m.app.currentFrame && !jsPresent m.app.transcribedAudio) = true <;>
          · simp only [analysisBalanced, hA, if_false] at h
            simp [uiStep, hA, analyzeStart, hg, analysisBalanced, h]
  | analyzeDone outcome fid now k =>
      rcases hf : m.analysisInFlight with _ | ⟨req, rest⟩
      · simpa [uiStep, hf] using h
      · rw [analysisBalanced, hf] at h
        have hA : m.app.isAnalyzing = true := by
          by_contra hA'
          rw [Bool.not_eq_true] at hA'
          simp [hA'] at h
        rw [hA, if_pos rfl] at h
        have hrest : rest.length = 0 := by
          simp only [List.length_cons] at h
          omega
        simp [uiStep, hf, analysisBalanced, analyzeSettle_isAnalyzing, hrest]
  | askButton =>
      by_cases hc : (m.app.currentAnalysis.isSome && !m.app.isQuerying
          && !(jsTrim m.app.userQuery == "") && m.app.queryResult.isNone) = true
      · have ha := askStartM_analysis m
        simp only [uiStep, hc, if_pos, analysisBalanced, ha.1, ha.2]
        exact h
      · simpa [uiStep, hc] using h
  | askEnter =>
      by_cases hc : (m.app.currentAnalysis.isSome && m.app.queryResult.isNone) = true
      · have ha := askStartM_analysis m
        simp only [uiStep, hc, if_pos, analysisBalanced, ha.1, ha.2]
        exact h
      · simpa [uiStep, hc] using h
  | askDone outcome =>
      rcases hf : m.queriesInFlight with _ | ⟨req, rest⟩
      · simpa [uiStep, hf] using h
      · have hask : (askSettle m.app outcome).isAnalyzing = m.app.isAnalyzing := by
          cases outcome <;> rfl
        simpa [uiStep, hf, analysisBalanced, hask] using h

lemma uiRun_analysisBalanced (evs : List UIEvent) :
    ∀ m : MState, analysisBalanced m → analysisBalanced (uiRun m evs) := by
  induction evs with
  | nil => intro m h; exact h
  | cons e evs ih =>
      intro m h
      exact ih _ (uiStep_analysisBalanced m e h)

/-- Claim C9 as amended: in every reachable state at most one analysis
request is in flight (the analyze button is the only trigger and is
disabled while one is outstanding), and the send button cannot start a
second query while one is outstanding; but the Enter key in the question
field can start a second query request, because `handleAsk` does not check
`isQuerying` (see `double_query_via_enter`). -/
theorem single_analysis_in_flight :
    (∀ evs : List UIEvent, (uiRun initM evs).analysisInFlight.length ≤ 1) ∧
    (∀ m : MState, m.app.isQuerying = true → uiStep m .askButton = m) := by
  constructor
  · intro evs
    have h0 : analysisBalanced initM := by simp [analysisBalanced, initM, initState]
    have h := uiRun_analysisBalanced evs initM h0
    rw [analysisBalanced] at h
    rw [h]
    split <;> norm_num
  · intro m h
    simp [uiStep, h]

/-- Witness for `single_analysis_in_flight`: the empty trace, and a state
with a query in flight on which the send button is a no-op. -/
theorem single_analysis_in_flight_witness :
    (uiRun initM []).analysisInFlight.length ≤ 1 ∧
    uiStep { app := { initState with isQuerying := true }
           , analysisInFlight := [], queriesInFlight := [] } .askButton
      = { app := { initState with isQuerying := true }
        , analysisInFlight := [], queriesInFlight := [] } :=
  ⟨single_analysis_in_flight.1 [], single_analysis_in_flight.2 _ rfl⟩

end SenseBridge
